import Mathlib

/-!
Verification of the Text2Audio pipeline (`src/app.py`): a shallow embedding of
`is_valid_image_url`, `img2text_url`, `generate_story`, `text2speech` and the
orchestration in `main`, with the remote client and the runtime environment
modelled as explicit oracle parameters.  Python exceptions are modelled with
`Except`; an `Except.error` that escapes a function is an uncaught exception.
-/

/-- Python `s.split(c)` for a single-character separator, over char lists:
always returns at least one (possibly empty) segment, and a trailing
separator yields a trailing empty segment. -/
def splitChar (c : Char) : List Char → List (List Char)
  | [] => [[]]
  | x :: xs =>
    let r := splitChar c xs
    if x = c then [] :: r
    else
      match r with
      | [] => [[x]]
      | y :: ys => (x :: y) :: ys

/-- Python `story.split('\n')` from `src/app.py` line 61. -/
def py_split_nl (s : String) : List String :=
  (splitChar '\n' s.toList).map (fun l => String.mk l)

/-- Python `s.strip()`: drop whitespace from both ends. -/
def py_strip (s : String) : String :=
  String.mk (((s.toList.dropWhile Char.isWhitespace).reverse.dropWhile
    Char.isWhitespace).reverse)

/-- The story post-processing of `src/app.py` line 61:
`story.split('\n')[-1].strip()` — the LAST split segment (which is empty
whenever the text ends in a newline), trimmed.  Python indexing `[-1]` is
total here because `split` never returns an empty list. -/
def lastLineTrim (s : String) : String :=
  py_strip ((py_split_nl s).getLastD "")

/-- Boolean test that `p` begins `l` (Python `startswith` over char lists). -/
def listStartsWith : List Char → List Char → Bool
  | [], _ => true
  | _ :: _, [] => false
  | a :: as, b :: bs => a == b && listStartsWith as bs

/-- Boolean substring-occurrence test (Python `in` over char lists). -/
def listContains (p : List Char) : List Char → Bool
  | [] => listStartsWith p []
  | b :: bs => listStartsWith p (b :: bs) || listContains p bs

/-- Python `"Error" in s`, the orchestrator's failure classifier
(`src/app.py` lines 101, 108, 115). -/
def containsError (s : String) : Bool :=
  listContains "Error".toList s.toList

/-- Whether an `Except` value is an exception. -/
def isErr {ε α : Type} : Except ε α → Bool
  | .error _ => true
  | .ok _ => false

/-- Python exceptions, distinguished by which `except` clauses catch them:
`requests.exceptions.RequestException` is caught in `img2text_url` and
`text2speech`; `KeyError`/`IndexError` are not. -/
inductive PyError where
  | requestException (msg : String)
  | keyError (key : String)
  | indexError
deriving DecidableEq, Repr

/-- Outcome of the captioning `requests.post` + `raise_for_status` + `json()`
sequence: a transport exception, a non-2xx status (raised by
`raise_for_status`), or a JSON body — a list of string-keyed objects. -/
inductive CaptionResponse where
  | transport (msg : String)
  | httpError (status : Nat) (msg : String)
  | ok (body : List (List (String × String)))
deriving DecidableEq, Repr

/-- Python `obj[k]` on a string-keyed dict: the value, or a `KeyError`. -/
def dict_get (obj : List (String × String)) (k : String) :
    Except PyError String :=
  match obj.find? (fun p => p.1 == k) with
  | some p => .ok p.2
  | none => .error (.keyError k)

/-- Python `xs[i]` on a list, for a non-negative index: the element, or an
`IndexError` when the index is out of range. -/
def json_index : List (List (String × String)) → Nat →
    Except PyError (List (String × String))
  | [], _ => .error .indexError
  | x :: _, 0 => .ok x
  | _ :: xs, n + 1 => json_index xs n

/-- `img2text_url` (`src/app.py` lines 24-33): one client call, no retry.
A `RequestException` (transport or non-2xx) is caught and turned into the
string `"Error: " ++ msg`; on a success status the function evaluates
`response.json()[0]["generated_text"]`, whose `IndexError`/`KeyError` are
NOT caught and escape as uncaught exceptions. -/
def img2text_url (resp : CaptionResponse) : Except PyError String :=
  match resp with
  | .transport msg => .ok ("Error: " ++ msg)
  | .httpError _ msg => .ok ("Error: " ++ msg)
  | .ok body =>
    match json_index body 0 with
    | .error e => .error e
    | .ok obj =>
      match dict_get obj "generated_text" with
      | .error e => .error e
      | .ok t => .ok t

/-- Outcome of the `requests.get` inside `is_valid_image_url`: any raised
exception, or a response with a status code and a header dictionary. -/
inductive GetOutcome where
  | exn
  | resp (status : Nat) (headers : List (String × String))
deriving DecidableEq, Repr

/-- `is_valid_image_url` (`src/app.py` lines 14-21): `True` when the GET
returns status 200 and a `Content-Type` header starting with `"image"`;
every other path — non-200 status, missing header (a `KeyError` caught by
`except Exception`), non-image content type, or any exception from the GET
itself — returns `False`. -/
def is_valid_image_url (g : GetOutcome) : Bool :=
  match g with
  | .exn => false
  | .resp status headers =>
    if status == 200 then
      match headers.find? (fun p => p.1 == "Content-Type") with
      | some p => listStartsWith "image".toList p.2.toList
      | none => false
    else false

/-- Modelled from the spec (claim C10's wording): the GET completes with
status 200 and a `Content-Type` header value starting with `"image"`. -/
def valid_url_spec (g : GetOutcome) : Prop :=
  ∃ headers p, g = .resp 200 headers ∧
    headers.find? (fun q => q.1 == "Content-Type") = some p ∧
    listStartsWith "image".toList p.2.toList = true

/-- The static candidate model list of `generate_story`
(`src/app.py` lines 45-49), in declaration order. -/
def models : List String :=
  ["HuggingFaceH4/zephyr-7b-beta",
   "deepseek-ai/DeepSeek-R1",
   "deepseek-ai/DeepSeek-R1-Distill-Qwen-1.5B"]

/-- The inner `for attempt in range(retry_attempts)` loop of `generate_story`
(`src/app.py` lines 53-64), instrumented: `predict ctx model a` is the
behaviour of `story_llm.predict` on attempt `a` (`.error` = any raised
exception).  Returns (post-processed story if some attempt succeeded,
attempt indices actually called, sleep durations performed).  On success the
loop returns immediately with no sleep; on failure it sleeps `2^attempt`
seconds — unconditionally, the final attempt included. -/
def tryAttempts (predict : String → String → Nat → Except String String)
    (ctx model : String) : List Nat → Option String × List Nat × List Nat
  | [] => (none, [], [])
  | a :: rest =>
    match predict ctx model a with
    | .ok story => (some (lastLineTrim story), [a], [])
    | .error _ =>
      let r := tryAttempts predict ctx model rest
      (r.1, a :: r.2.1, 2 ^ a :: r.2.2)

/-- The outer `for model in models` loop of `generate_story`
(`src/app.py` lines 51-64): each candidate gets the attempt loop over
`range 3`; the first candidate with a successful attempt wins and its
identifier is recorded; otherwise traces accumulate and the next candidate
is tried. -/
def tryModels (predict : String → String → Nat → Except String String)
    (ctx : String) :
    List String → Option (String × String) × List (String × Nat) × List Nat
  | [] => (none, [], [])
  | m :: ms =>
    match tryAttempts predict ctx m (List.range 3) with
    | (some story, calls, sleeps) =>
      (some (story, m), calls.map (fun a => (m, a)), sleeps)
    | (none, calls, sleeps) =>
      let r := tryModels predict ctx ms
      (r.1, calls.map (fun a => (m, a)) ++ r.2.1, sleeps ++ r.2.2)

/-- Instrumented result of one `generate_story` run: the returned string,
the candidate that produced it (`none` on exhaustion), the client calls made
(model, attempt index) in order, and the sleeps performed in order. -/
structure StoryRun where
  story : String
  modelUsed : Option String
  calls : List (String × Nat)
  sleeps : List Nat
deriving DecidableEq, Repr

/-- `generate_story` (`src/app.py` lines 36-66), instrumented.  On the first
successful attempt of the first succeeding candidate, the post-processed
text is returned regardless of whether it is empty; if every candidate
exhausts its 3 attempts, the literal string
`"Error: Unable to generate story after multiple attempts."` is returned. -/
def generate_story (predict : String → String → Nat → Except String String)
    (ctx : String) : StoryRun :=
  match tryModels predict ctx models with
  | (some (s, m), calls, sleeps) => ⟨s, some m, calls, sleeps⟩
  | (none, calls, sleeps) =>
    ⟨"Error: Unable to generate story after multiple attempts.", none,
     calls, sleeps⟩

/-- Number of client calls a story run made to one candidate model. -/
def callsTo (r : StoryRun) (m : String) : Nat :=
  (r.calls.filter (fun c => c.1 == m)).length

/-- `text2speech` (`src/app.py` lines 69-82): single call, no retry; a
`RequestException` is caught and becomes `"Error: " ++ msg`; on success the
audio bytes are written and the fixed path `"audio.flac"` is returned. -/
def text2speech (ttsResp : Except String Unit) : String :=
  match ttsResp with
  | .ok _ => "audio.flac"
  | .error msg => "Error: " ++ msg

/-- The three pipeline stages, for naming the point of failure. -/
inductive Stage where
  | captioning
  | story
  | narration
deriving DecidableEq, Repr

/-- What the Streamlit `main` displays at the end of a run. -/
inductive Outcome where
  | noInput
  | invalidUrl
  | failed (stage : Stage) (detail : String)
  | success (caption story audio : String)
deriving DecidableEq, Repr

/-- Instrumented result of one `main` run: the outcome plus which stages
were invoked and the story stage's client-call trace. -/
structure MainResult where
  outcome : Outcome
  captionInvoked : Bool
  storyInvoked : Bool
  narrationInvoked : Bool
  storyClientCalls : List (String × Nat)
deriving DecidableEq, Repr

/-- The orchestration in `main` (`src/app.py` lines 85-131), instrumented.
After URL validation, each stage's string result is classified as a failure
exactly when it contains the substring `"Error"`; on the first such failure
the run halts and later stages are never invoked.  An uncaught exception
from `img2text_url` escapes `main` as well. -/
def main_run (image_url : String) (g : GetOutcome) (capResp : CaptionResponse)
    (predict : String → String → Nat → Except String String)
    (ttsResp : Except String Unit) : Except PyError MainResult :=
  if image_url = "" then .ok ⟨.noInput, false, false, false, []⟩
  else if is_valid_image_url g then
    match img2text_url capResp with
    | .error e => .error e
    | .ok caption =>
      if containsError caption then
        .ok ⟨.failed .captioning caption, true, false, false, []⟩
      else
        let r := generate_story predict caption
        if containsError r.story then
          .ok ⟨.failed .story r.story, true, true, false, r.calls⟩
        else
          let audio := text2speech ttsResp
          if containsError audio then
            .ok ⟨.failed .narration audio, true, true, true, r.calls⟩
          else
            .ok ⟨.success caption r.story audio, true, true, true, r.calls⟩
  else .ok ⟨.invalidUrl, false, false, false, []⟩

/-! ## Helper lemmas -/

/-- A list always begins with itself (followed by anything). -/
theorem listStartsWith_append_self (p l : List Char) :
    listStartsWith p (p ++ l) = true := by
  induction p with
  | nil => rfl
  | cons a as ih => simp [listStartsWith, ih]

/-- A list that begins with `p` contains `p`. -/
theorem listContains_of_startsWith (p l : List Char)
    (h : listStartsWith p l = true) : listContains p l = true := by
  cases l with
  | nil => simpa [listContains] using h
  | cons b bs => simp [listContains, h]

/-- Every string of the form `"Error: " ++ msg` — the shape every caught
exception is turned into — is classified as a failure by `main`. -/
theorem containsError_append (msg : String) :
    containsError ("Error: " ++ msg) = true := by
  have h : ("Error: " ++ msg).toList =
      "Error".toList ++ (':' :: ' ' :: msg.toList) := rfl
  unfold containsError
  rw [h]
  exact listContains_of_startsWith _ _ (listStartsWith_append_self _ _)

/-- If every attempt in `as` raises, the attempt loop succeeds on none of
them, calls each of them in order, and sleeps `2^a` after each one —
the last included. -/
theorem tryAttempts_all_fail (predict : String → String → Nat → Except String String)
    (ctx m : String) (as : List Nat)
    (h : ∀ a ∈ as, isErr (predict ctx m a) = true) :
    tryAttempts predict ctx m as = (none, as, as.map (fun a => 2 ^ a)) := by
  induction as with
  | nil => rfl
  | cons a rest ih =>
    have h0 := h a (List.mem_cons_self a rest)
    cases heq : predict ctx m a with
    | ok s => rw [heq] at h0; simp [isErr] at h0
    | error e =>
      simp only [tryAttempts, heq, List.map_cons]
      rw [ih (fun b hb => h b (List.mem_cons_of_mem a hb))]

/-- The attempt loop never makes more calls than it has attempt indices. -/
theorem tryAttempts_calls_le (predict : String → String → Nat → Except String String)
    (ctx m : String) (as : List Nat) :
    (tryAttempts predict ctx m as).2.1.length ≤ as.length := by
  induction as with
  | nil => simp [tryAttempts]
  | cons a rest ih =>
    cases heq : predict ctx m a with
    | ok s => simp [tryAttempts, heq]
    | error e =>
      simp only [tryAttempts, heq, List.length_cons]
      omega

/-- Within one candidate, the sleeps performed are exactly `2^a` for each
failed attempt `a`, in order: a successful attempt sleeps nothing, and every
failed attempt — the final one included — sleeps. -/
theorem tryAttempts_sleeps_eq (predict : String → String → Nat → Except String String)
    (ctx m : String) (as : List Nat) :
    (tryAttempts predict ctx m as).2.2 =
    ((tryAttempts predict ctx m as).2.1.filter
      (fun a => isErr (predict ctx m a))).map (fun a => 2 ^ a) := by
  induction as with
  | nil => rfl
  | cons a rest ih =>
    cases heq : predict ctx m a with
    | ok s => simp [tryAttempts, heq, isErr]
    | error e => simp [tryAttempts, heq, isErr, ih]

/-- Filtering a tagged copy of a list commutes with filtering the list. -/
theorem filter_map_pair (m : String) (p : String × Nat → Bool) (as : List Nat) :
    (as.map (fun a => (m, a))).filter p =
    (as.filter (fun a => p (m, a))).map (fun a => (m, a)) := by
  induction as with
  | nil => rfl
  | cons a rest ih =>
    simp only [List.map_cons, List.filter_cons]
    cases h : p (m, a) <;> simp [h, ih]

/-- Across the whole fallback loop, the sleeps performed are exactly `2^a`
for each failed call `(model, a)`, in order. -/
theorem tryModels_sleeps (predict : String → String → Nat → Except String String)
    (ctx : String) (ms : List String) :
    (tryModels predict ctx ms).2.2 =
    ((tryModels predict ctx ms).2.1.filter
      (fun c => isErr (predict ctx c.1 c.2))).map (fun c => 2 ^ c.2) := by
  induction ms with
  | nil => rfl
  | cons m ms ih =>
    have hA := tryAttempts_sleeps_eq predict ctx m (List.range 3)
    simp only [tryModels]
    rcases htry : tryAttempts predict ctx m (List.range 3) with ⟨res, calls, sleeps⟩
    rw [htry] at hA
    cases res with
    | some s =>
      simp only [filter_map_pair, List.map_map]
      simpa [Function.comp] using hA
    | none =>
      simp only [List.filter_append, List.map_append, filter_map_pair,
        List.map_map]
      rw [ih]
      simpa [Function.comp] using hA

/-- The fallback loop makes at most 3 calls per candidate. -/
theorem tryModels_calls_le (predict : String → String → Nat → Except String String)
    (ctx : String) (ms : List String) :
    (tryModels predict ctx ms).2.1.length ≤ 3 * ms.length := by
  induction ms with
  | nil => simp [tryModels]
  | cons m ms ih =>
    have hlen := tryAttempts_calls_le predict ctx m (List.range 3)
    simp only [List.length_range] at hlen
    simp only [tryModels]
    rcases htry : tryAttempts predict ctx m (List.range 3) with ⟨res, calls, sleeps⟩
    rw [htry] at hlen
    simp only [] at hlen
    cases res with
    | some s =>
      simp only [List.length_map, List.length_cons]
      omega
    | none =>
      simp only [List.length_append, List.length_map, List.length_cons]
      omega

/-- If every attempt of every candidate raises, the fallback loop succeeds
nowhere, calling every candidate 3 times in order and sleeping 1, 2, 4
seconds per candidate. -/
theorem tryModels_all_fail (predict : String → String → Nat → Except String String)
    (ctx : String) (ms : List String)
    (h : ∀ m ∈ ms, ∀ a ∈ List.range 3, isErr (predict ctx m a) = true) :
    tryModels predict ctx ms =
      (none, (ms.map (fun m => (List.range 3).map (fun a => (m, a)))).flatten,
       (ms.map (fun _ => (List.range 3).map (fun a => 2 ^ a))).flatten) := by
  induction ms with
  | nil => rfl
  | cons m ms ih =>
    have hm := tryAttempts_all_fail predict ctx m (List.range 3)
      (h m (List.mem_cons_self m ms))
    simp only [tryModels, hm, List.map_cons, List.flatten_cons]
    rw [ih (fun m' hm' => h m' (List.mem_cons_of_mem m hm'))]

/-- Reduction of `main_run` once the URL is accepted and `img2text_url`
returns a caption string. -/
theorem main_run_caption_ok (url : String) (g : GetOutcome)
    (capResp : CaptionResponse)
    (predict : String → String → Nat → Except String String)
    (tts : Except String Unit) (caption : String)
    (hurl : url ≠ "") (hvalid : is_valid_image_url g = true)
    (hcap : img2text_url capResp = .ok caption) :
    main_run url g capResp predict tts =
      if containsError caption then
        .ok ⟨.failed .captioning caption, true, false, false, []⟩
      else
        let r := generate_story predict caption
        if containsError r.story then
          .ok ⟨.failed .story r.story, true, true, false, r.calls⟩
        else
          let audio := text2speech tts
          if containsError audio then
            .ok ⟨.failed .narration audio, true, true, true, r.calls⟩
          else
            .ok ⟨.success caption r.story audio, true, true, true, r.calls⟩ := by
  simp [main_run, hurl, hvalid, hcap]

/-! ## Claim theorems -/

/-- Fault model for C2's counterexample and C6's witness: every client call
raises. -/
def predictFail : String → String → Nat → Except String String :=
  fun _ _ _ => .error "service unavailable"

/-- Fault model for C4: every client call returns whitespace-only text. -/
def predictBlank : String → String → Nat → Except String String :=
  fun _ _ _ => .ok "   \n   "

/-- The raw model response named by claim C3. -/
def rawC3 : String := "line1\nline2\n  final line  \n"

/-- Claim C3 (counterexample): for the raw response
`"line1\nline2\n  final line  \n"` the post-processing does NOT yield
`"final line"` — `split('\n')[-1]` is the empty segment after the trailing
newline, so the extracted story is empty. -/
theorem C3_counterexample :
    lastLineTrim rawC3 ≠ "final line" ∧
    (generate_story (fun _ _ _ => .ok rawC3) "a cat").story ≠ "final line" := by
  refine ⟨by decide, by decide⟩

/-- Claim C3 (amended): the post-processing takes the literal last
newline-split segment of the raw text and trims it; on the claim's raw
response (which ends in a newline) the extracted story is therefore the
empty string, while the same text without the trailing newline would give
`"final line"`. -/
theorem C3_last_segment :
    (generate_story (fun _ _ _ => .ok rawC3) "a cat").story = "" ∧
    lastLineTrim rawC3 = "" ∧
    lastLineTrim "line1\nline2\n  final line  " = "final line" := by
  refine ⟨rfl, rfl, by decide⟩

/-- Claim C2 (counterexample): when every attempt of every candidate fails,
the sleep trace of one `generate_story` run is `1, 2, 4` for EACH of the 3
candidates — in particular a `2^2 = 4` second sleep follows the final
(third) attempt of every candidate before moving on, so 9 sleeps occur
where the claim ("no sleep after the final attempt") would allow at most 6. -/
theorem C2_counterexample :
    (generate_story predictFail "a cat").sleeps = [1, 2, 4, 1, 2, 4, 1, 2, 4] ∧
    ¬ (generate_story predictFail "a cat").sleeps.length ≤ 6 := by
  refine ⟨rfl, by decide⟩

/-- Claim C2 (amended): within the story generation stage a backoff sleep of
`2^attempt` seconds (1s, 2s, 4s after attempt indices 0, 1, 2) occurs after
EVERY failed attempt — including after the final (third) attempt of a
candidate, before moving to the next candidate or returning exhaustion —
and never after a successful attempt. -/
theorem C2_sleep_after_every_failure
    (predict : String → String → Nat → Except String String) (ctx : String) :
    (generate_story predict ctx).sleeps =
    ((generate_story predict ctx).calls.filter
      (fun c => isErr (predict ctx c.1 c.2))).map (fun c => 2 ^ c.2) := by
  have h := tryModels_sleeps predict ctx models
  unfold generate_story
  rcases htm : tryModels predict ctx models with ⟨res, calls, sleeps⟩
  rw [htm] at h
  cases res with
  | none => simpa using h
  | some sm => rcases sm with ⟨s, m⟩; simpa using h

/-- Claim C4 (counterexample): a first attempt whose raw response is
whitespace-only (`"   \n   "`, post-processing to the empty string) is NOT
treated as a failure: `generate_story` returns the empty string as its
result after exactly one client call — no retry, no backoff, no fallback —
and the orchestrator then proceeds to narration with the empty story. -/
theorem C4_counterexample :
    (generate_story predictBlank "a cat").story = "" ∧
    (generate_story predictBlank "a cat").modelUsed =
      some "HuggingFaceH4/zephyr-7b-beta" ∧
    (generate_story predictBlank "a cat").calls =
      [("HuggingFaceH4/zephyr-7b-beta", 0)] ∧
    (generate_story predictBlank "a cat").sleeps = [] ∧
    main_run "u" (.resp 200 [("Content-Type", "image/jpeg")])
      (.ok [[("generated_text", "a cat")]]) predictBlank (.ok ()) =
      .ok ⟨.success "a cat" "" "audio.flac", true, true, true,
        [("HuggingFaceH4/zephyr-7b-beta", 0)]⟩ := by
  refine ⟨rfl, rfl, rfl, rfl, rfl⟩

/-- Claim C4 (amended): only a raised exception triggers the
retry/backoff/fallback path; an attempt whose raw response post-processes
to the empty string is returned immediately as the (empty) successful
result, with no further attempt or candidate tried and no sleep. -/
theorem C4_empty_returned_as_success
    (predict : String → String → Nat → Except String String) (ctx raw : String)
    (h0 : predict ctx "HuggingFaceH4/zephyr-7b-beta" 0 = .ok raw)
    (hempty : lastLineTrim raw = "") :
    generate_story predict ctx =
      ⟨"", some "HuggingFaceH4/zephyr-7b-beta",
       [("HuggingFaceH4/zephyr-7b-beta", 0)], []⟩ := by
  have hrange : List.range 3 = [0, 1, 2] := rfl
  have hm1 : tryAttempts predict ctx "HuggingFaceH4/zephyr-7b-beta"
      (List.range 3) = (some "", [0], []) := by
    rw [hrange]
    simp [tryAttempts, h0, hempty]
  simp only [generate_story, models, tryModels, hm1, List.map_cons,
    List.map_nil]

/-- Claim C4 witness: the amended theorem applied to the whitespace-only
fault model. -/
theorem C4_witness :
    generate_story predictBlank "a cat" =
      ⟨"", some "HuggingFaceH4/zephyr-7b-beta",
       [("HuggingFaceH4/zephyr-7b-beta", 0)], []⟩ :=
  C4_empty_returned_as_success predictBlank "a cat" "   \n   " rfl (by decide)

/-- Claim C8 (counterexample): on a success-status response whose first
element lacks the generated-text field, `img2text_url` raises an uncaught
`KeyError` (an unchecked error) instead of returning a captioning failure;
and a present-but-empty field is returned as an (empty) caption, not
surfaced as a failure. -/
theorem C8_counterexample :
    img2text_url (.ok [[("caption_text", "x")]]) =
      .error (.keyError "generated_text") ∧
    img2text_url (.ok [[("generated_text", "")]]) = .ok "" := by
  refine ⟨rfl, rfl⟩

/-- Claim C8 (amended): on any client error — transport failure or non-2xx
status — `img2text_url` returns the string `"Error: " ++ detail`
immediately, with no retry and no fallback model; on a success-status
response it extracts the generated-text field of the first element, raising
an uncaught `IndexError` when the collection is empty and an uncaught
`KeyError` when the field is absent, and returning the field verbatim
(empty or not) when present. -/
theorem C8_captioning_behaviour :
    (∀ msg, img2text_url (.transport msg) = .ok ("Error: " ++ msg)) ∧
    (∀ status msg, img2text_url (.httpError status msg) =
      .ok ("Error: " ++ msg)) ∧
    img2text_url (.ok []) = .error .indexError ∧
    (∀ obj rest, obj.find? (fun p => p.1 == "generated_text") = none →
      img2text_url (.ok (obj :: rest)) = .error (.keyError "generated_text")) ∧
    (∀ obj rest p, obj.find? (fun q => q.1 == "generated_text") = some p →
      img2text_url (.ok (obj :: rest)) = .ok p.2) := by
  refine ⟨fun msg => rfl, fun status msg => rfl, rfl, ?_, ?_⟩
  · intro obj rest h
    simp [img2text_url, json_index, dict_get, h]
  · intro obj rest p h
    simp [img2text_url, json_index, dict_get, h]

/-- Claim C8 witness: the amended theorem applied to a transport error and
to a response missing the generated-text field. -/
theorem C8_witness :
    img2text_url (.transport "connection reset") =
      .ok ("Error: " ++ "connection reset") ∧
    img2text_url (.ok [[("caption_text", "x")]]) =
      .error (.keyError "generated_text") :=
  ⟨C8_captioning_behaviour.1 "connection reset",
   C8_captioning_behaviour.2.2.2.1 [("caption_text", "x")] [] rfl⟩

/-- Claim C5: for every caption and every behaviour of the remote client, a
single `generate_story` run makes at most `3 × (number of candidate
models)` client calls — at most 9 for the 3 configured candidates. -/
theorem C5_call_budget
    (predict : String → String → Nat → Except String String) (ctx : String) :
    (generate_story predict ctx).calls.length ≤ 3 * models.length ∧
    (generate_story predict ctx).calls.length ≤ 9 := by
  have h := tryModels_calls_le predict ctx models
  have hlen : models.length = 3 := rfl
  unfold generate_story
  rcases htm : tryModels predict ctx models with ⟨res, calls, sleeps⟩
  rw [htm] at h
  simp only [] at h
  cases res with
  | none => exact ⟨by simpa [hlen] using h, by simpa [hlen] using h⟩
  | some sm =>
    rcases sm with ⟨s, m⟩
    exact ⟨by simpa [hlen] using h, by simpa [hlen] using h⟩

/-- Fault model for C1's witness: candidate 2 succeeds, everything else
raises. -/
def predictSecondOk : String → String → Nat → Except String String :=
  fun _ m _ =>
    if m = "deepseek-ai/DeepSeek-R1" then .ok "Once upon a time."
    else .error "model busy"

/-- Claim C1: candidates are tried strictly in declared order with at most 3
attempts each, and the first successful attempt wins; when candidate 1
fails all its attempts and candidate 2 succeeds on its first, the result
was produced by candidate 2's identifier, exactly 3 calls went to candidate
1, exactly 1 call to candidate 2, and the call trace shows candidate 3 was
never tried. -/
theorem C1_fallback_first_success
    (predict : String → String → Nat → Except String String) (ctx : String)
    (h1 : ∀ a, a < 3 → isErr (predict ctx "HuggingFaceH4/zephyr-7b-beta" a) = true)
    (h2 : ∃ s, predict ctx "deepseek-ai/DeepSeek-R1" 0 = .ok s) :
    (generate_story predict ctx).modelUsed = some "deepseek-ai/DeepSeek-R1" ∧
    callsTo (generate_story predict ctx) "HuggingFaceH4/zephyr-7b-beta" = 3 ∧
    callsTo (generate_story predict ctx) "deepseek-ai/DeepSeek-R1" = 1 ∧
    (generate_story predict ctx).calls =
      [("HuggingFaceH4/zephyr-7b-beta", 0), ("HuggingFaceH4/zephyr-7b-beta", 1),
       ("HuggingFaceH4/zephyr-7b-beta", 2), ("deepseek-ai/DeepSeek-R1", 0)] := by
  obtain ⟨s, hs⟩ := h2
  have hmem : ∀ a ∈ ([0, 1, 2] : List Nat), a < 3 := by decide
  have hrange : List.range 3 = [0, 1, 2] := rfl
  have hm1 : tryAttempts predict ctx "HuggingFaceH4/zephyr-7b-beta"
      (List.range 3) = (none, [0, 1, 2], [1, 2, 4]) := by
    rw [hrange]
    exact tryAttempts_all_fail predict ctx _ [0, 1, 2]
      (fun a ha => h1 a (hmem a ha))
  have hm2 : tryAttempts predict ctx "deepseek-ai/DeepSeek-R1"
      (List.range 3) = (some (lastLineTrim s), [0], []) := by
    rw [hrange]
    simp [tryAttempts, hs]
  have htm : tryModels predict ctx models =
      (some (lastLineTrim s, "deepseek-ai/DeepSeek-R1"),
       [("HuggingFaceH4/zephyr-7b-beta", 0), ("HuggingFaceH4/zephyr-7b-beta", 1),
        ("HuggingFaceH4/zephyr-7b-beta", 2), ("deepseek-ai/DeepSeek-R1", 0)],
       [1, 2, 4]) := by
    simp [models, tryModels, hm1, hm2]
  have hgen : generate_story predict ctx =
      ⟨lastLineTrim s, some "deepseek-ai/DeepSeek-R1",
       [("HuggingFaceH4/zephyr-7b-beta", 0), ("HuggingFaceH4/zephyr-7b-beta", 1),
        ("HuggingFaceH4/zephyr-7b-beta", 2), ("deepseek-ai/DeepSeek-R1", 0)],
       [1, 2, 4]⟩ := by
    unfold generate_story
    rw [htm]
  refine ⟨?_, ?_, ?_, ?_⟩ <;> rw [hgen] <;> rfl

/-- Claim C1 witness: the theorem applied to the fault model in which
candidate 1 always raises and candidate 2 succeeds immediately. -/
theorem C1_witness :
    (generate_story predictSecondOk "a cat").modelUsed =
      some "deepseek-ai/DeepSeek-R1" ∧
    callsTo (generate_story predictSecondOk "a cat")
      "HuggingFaceH4/zephyr-7b-beta" = 3 ∧
    callsTo (generate_story predictSecondOk "a cat")
      "deepseek-ai/DeepSeek-R1" = 1 ∧
    (generate_story predictSecondOk "a cat").calls =
      [("HuggingFaceH4/zephyr-7b-beta", 0), ("HuggingFaceH4/zephyr-7b-beta", 1),
       ("HuggingFaceH4/zephyr-7b-beta", 2), ("deepseek-ai/DeepSeek-R1", 0)] :=
  C1_fallback_first_success predictSecondOk "a cat" (fun _ _ => rfl)
    ⟨"Once upon a time.", rfl⟩

/-- The terminal exhaustion string of `generate_story`
(`src/app.py` line 66). -/
def exhaustedMsg : String :=
  "Error: Unable to generate story after multiple attempts."

/-- The full client-call trace of an exhausted `generate_story` run: every
candidate, in declared order, called on attempts 0, 1, 2. -/
def allFailCalls : List (String × Nat) :=
  (models.map (fun m => (List.range 3).map (fun a => (m, a)))).flatten

/-- Claim C6: when every candidate fails all of its attempts,
`generate_story` returns the terminal exhaustion string, the orchestrator's
outcome names the story stage as the point of failure with that string as
detail, and the narration stage is never invoked. -/
theorem C6_exhaustion (url : String) (g : GetOutcome)
    (capResp : CaptionResponse) (caption : String)
    (predict : String → String → Nat → Except String String)
    (tts : Except String Unit)
    (hurl : url ≠ "") (hvalid : is_valid_image_url g = true)
    (hcap : img2text_url capResp = .ok caption)
    (hok : containsError caption = false)
    (hfail : ∀ m ∈ models, ∀ a, a < 3 → isErr (predict caption m a) = true) :
    generate_story predict caption =
      ⟨exhaustedMsg, none, allFailCalls, [1, 2, 4, 1, 2, 4, 1, 2, 4]⟩ ∧
    main_run url g capResp predict tts =
      .ok ⟨.failed .story exhaustedMsg, true, true, false, allFailCalls⟩ := by
  have htm := tryModels_all_fail predict caption models
    (fun m hm a ha => hfail m hm a (List.mem_range.mp ha))
  have hgen : generate_story predict caption =
      ⟨exhaustedMsg, none, allFailCalls, [1, 2, 4, 1, 2, 4, 1, 2, 4]⟩ := by
    unfold generate_story
    rw [htm]
    rfl
  refine ⟨hgen, ?_⟩
  rw [main_run_caption_ok url g capResp predict tts caption hurl hvalid hcap]
  have hex : containsError exhaustedMsg = true := by decide
  simp [hok, hgen, hex]

/-- Claim C6 witness: the theorem applied to a concrete run in which every
client call raises. -/
theorem C6_witness :
    generate_story predictFail "a cat" =
      ⟨exhaustedMsg, none, allFailCalls, [1, 2, 4, 1, 2, 4, 1, 2, 4]⟩ ∧
    main_run "u" (.resp 200 [("Content-Type", "image/png")])
      (.ok [[("generated_text", "a cat")]]) predictFail (.ok ()) =
      .ok ⟨.failed .story exhaustedMsg, true, true, false, allFailCalls⟩ :=
  C6_exhaustion "u" (.resp 200 [("Content-Type", "image/png")])
    (.ok [[("generated_text", "a cat")]]) "a cat" predictFail (.ok ())
    (by decide) (by decide) rfl (by decide) (fun _ _ _ _ => rfl)

/-- Claim C7: when the captioning stage fails (a transport error or a
non-2xx status, surfaced by `img2text_url` as an `"Error: ..."` string),
the orchestrator halts: the outcome names the captioning stage with that
detail, and neither the story stage nor the narration stage is invoked. -/
theorem C7_caption_failure_halts (url : String) (g : GetOutcome)
    (msg : String) (status : Nat)
    (predict : String → String → Nat → Except String String)
    (tts : Except String Unit)
    (hurl : url ≠ "") (hvalid : is_valid_image_url g = true) :
    main_run url g (.transport msg) predict tts =
      .ok ⟨.failed .captioning ("Error: " ++ msg), true, false, false, []⟩ ∧
    main_run url g (.httpError status msg) predict tts =
      .ok ⟨.failed .captioning ("Error: " ++ msg), true, false, false, []⟩ := by
  constructor
  · rw [main_run_caption_ok url g (.transport msg) predict tts
      ("Error: " ++ msg) hurl hvalid rfl]
    simp [containsError_append]
  · rw [main_run_caption_ok url g (.httpError status msg) predict tts
      ("Error: " ++ msg) hurl hvalid rfl]
    simp [containsError_append]

/-- Claim C7 witness: the theorem applied to a concrete captioning failure. -/
theorem C7_witness :
    main_run "u" (.resp 200 [("Content-Type", "image/png")])
      (.transport "timeout") predictFail (.ok ()) =
      .ok ⟨.failed .captioning ("Error: " ++ "timeout"), true, false, false,
        []⟩ ∧
    main_run "u" (.resp 200 [("Content-Type", "image/png")])
      (.httpError 503 "503 Server Error") predictFail (.ok ()) =
      .ok ⟨.failed .captioning ("Error: " ++ "503 Server Error"), true, false,
        false, []⟩ :=
  ⟨(C7_caption_failure_halts "u" (.resp 200 [("Content-Type", "image/png")])
      "timeout" 503 predictFail (.ok ()) (by decide) (by decide)).1,
   (C7_caption_failure_halts "u" (.resp 200 [("Content-Type", "image/png")])
      "503 Server Error" 503 predictFail (.ok ()) (by decide) (by decide)).2⟩

/-- Claim C9: the orchestrator classifies a stage's string result as a
failure exactly when it contains the substring `"Error"` (the
`containsError` test embedded in `main_run`); consequently a caption that
`img2text_url` successfully returned but that happens to contain `"Error"`
halts the pipeline at the captioning stage, and a story that
`generate_story` successfully produced (a candidate succeeded) but that
contains `"Error"` halts it at the story stage — narration is never
reached. -/
theorem C9_error_substring_classifier (url : String) (g : GetOutcome)
    (capResp : CaptionResponse)
    (predict : String → String → Nat → Except String String)
    (tts : Except String Unit)
    (hurl : url ≠ "") (hvalid : is_valid_image_url g = true) :
    (∀ caption, img2text_url capResp = .ok caption →
      containsError caption = true →
      main_run url g capResp predict tts =
        .ok ⟨.failed .captioning caption, true, false, false, []⟩) ∧
    (∀ caption m, img2text_url capResp = .ok caption →
      containsError caption = false →
      (generate_story predict caption).modelUsed = some m →
      containsError (generate_story predict caption).story = true →
      main_run url g capResp predict tts =
        .ok ⟨.failed .story (generate_story predict caption).story, true, true,
          false, (generate_story predict caption).calls⟩) := by
  constructor
  · intro caption hcap herr
    rw [main_run_caption_ok url g capResp predict tts caption hurl hvalid hcap]
    simp [herr]
  · intro caption m hcap hok hused herr
    rw [main_run_caption_ok url g capResp predict tts caption hurl hvalid hcap]
    simp [hok, herr]

/-- Fault model for C9's witness: the first candidate immediately returns a
story that happens to contain the word `"Error"`. -/
def predictErrorStory : String → String → Nat → Except String String :=
  fun _ _ _ => .ok "A story about an Error that became a friend."

/-- Claim C9 witness: the theorem applied to a successful caption containing
`"Error"` and to a successful story containing `"Error"`. -/
theorem C9_witness :
    main_run "u" (.resp 200 [("Content-Type", "image/png")])
      (.ok [[("generated_text", "a sign that reads Error 404")]])
      predictFail (.ok ()) =
      .ok ⟨.failed .captioning "a sign that reads Error 404", true, false,
        false, []⟩ ∧
    main_run "u" (.resp 200 [("Content-Type", "image/png")])
      (.ok [[("generated_text", "a cat")]]) predictErrorStory (.ok ()) =
      .ok ⟨.failed .story
        (generate_story predictErrorStory "a cat").story, true, true, false,
        (generate_story predictErrorStory "a cat").calls⟩ :=
  ⟨(C9_error_substring_classifier "u" (.resp 200 [("Content-Type", "image/png")])
      (.ok [[("generated_text", "a sign that reads Error 404")]])
      predictFail (.ok ()) (by decide) (by decide)).1
      "a sign that reads Error 404" rfl (by decide),
   (C9_error_substring_classifier "u" (.resp 200 [("Content-Type", "image/png")])
      (.ok [[("generated_text", "a cat")]])
      predictErrorStory (.ok ()) (by decide) (by decide)).2
      "a cat" "HuggingFaceH4/zephyr-7b-beta" rfl (by decide) rfl (by decide)⟩

/-- Claim C10: `is_valid_image_url` is a total boolean predicate (every
modelled behaviour of the GET, exceptions included, yields a boolean), and
it returns `true` exactly when the GET completed with status 200 and a
`Content-Type` header value starting with `"image"`; every other case —
any exception, a non-200 status, a missing header (whose `KeyError` the
`except` clause turns into `False`), or a non-image content type — yields
`false`. -/
theorem C10_url_validation (g : GetOutcome) :
    is_valid_image_url g = true ↔ valid_url_spec g := by
  cases g with
  | exn =>
    constructor
    · intro h
      simp [is_valid_image_url] at h
    · rintro ⟨hs, p, heq, -, -⟩
      exact absurd heq (by simp)
  | resp status headers =>
    constructor
    · intro h
      simp only [is_valid_image_url] at h
      by_cases hstat : (status == 200) = true
      · rw [if_pos hstat] at h
        cases hfind : headers.find? (fun p => p.1 == "Content-Type") with
        | none => rw [hfind] at h; exact absurd h (by decide)
        | some p =>
          rw [hfind] at h
          have hs200 : status = 200 := by simpa using hstat
          exact ⟨headers, p, by rw [hs200], hfind, h⟩
      · rw [if_neg hstat] at h
        exact absurd h (by decide)
    · rintro ⟨hs, p, heq, hfind, hstarts⟩
      injection heq with h1 h2
      subst h1
      subst h2
      simp only [is_valid_image_url, hfind]
      simpa using hstarts
